import Mathlib

/-!
Formal model of `src/js/app.js` of the Purbavash weather dashboard.

The file embeds, as Lean definitions, the pieces of `app.js` that the
verified properties are about:

* the search-field `input` listener and its timer handling (lines 55-103),
* the `updateWeather(lat, lon)` orchestrator: its synchronous prologue,
  the nested fetch callbacks and the view fragments they render
  (lines 152-433),
* the `error404` entry point (lines 435-438).

API response payloads are modelled as records holding exactly the fields
`app.js` destructures.  String formatting helpers from `module.js`
(`getDate`, `getHours`, `getTime`, `mps_to_kmh`, `aqiText`, month and
weekday tables) only pretty-print values for display, so rendered view
fragments keep the raw values those helpers are applied to.  Numeric
payload fields are modelled as integers; no verified property depends on
fractional values.
-/

namespace Purbavash

/-! ### API response payloads, with the fields destructured by `app.js` -/

/-- The current-weather payload (destructured at app.js lines 178-186).
`description` and `icon` are the fields of the first element of the
`weather` array, as bound by `const [{ description, icon }] = weather`. -/
structure CurrentWeather where
  description : String
  icon : String
  dt : Int
  sunrise : Int
  sunset : Int
  temp : Int
  feels_like : Int
  pressure : Int
  humidity : Int
  visibility : Int
  timezone : Int
deriving DecidableEq

/-- The first element of a reverse-geocoding response, as bound by
`function ([{ name, country }])` at app.js line 218. -/
structure GeoPlace where
  name : String
  country : String
deriving DecidableEq

/-- One element of the forecast `list` (fields destructured at app.js
lines 243-249 and 394-399).  `description` and `icon` come from the first
element of the entry's `weather` array. -/
structure ForecastEntry where
  dt : Int
  temp : Int
  temp_max : Int
  description : String
  icon : String
  wind_deg : Int
  wind_speed : Int
  dt_txt : String
deriving DecidableEq

/-- The forecast payload: its `list` and `city.timezone`
(destructured at app.js lines 227-230). -/
structure Forecast where
  list : List ForecastEntry
  timezone : Int
deriving DecidableEq

/-- The fields of `airPollution.list[0]` destructured at app.js
lines 291-296. -/
structure AirPollution where
  aqi : Int
  no2 : Int
  o3 : Int
  so2 : Int
  pm2_5 : Int
deriving DecidableEq

/-! ### Rendered view fragments -/

/-- The "Now" card built in the current-weather callback
(app.js lines 187-216).  `location` is the text of the card's
`[data-location]` element, filled in by the reverse-geocoding callback
(line 219) and empty until then. -/
structure NowCard where
  temp : Int
  weatherIcon : String
  description : String
  dt : Int
  timezone : Int
  location : String
deriving DecidableEq

/-- One `slider-item` of the hourly list (app.js lines 253-284).
`wind_speed` is the raw speed later formatted through `mps_to_kmh`. -/
structure HourlyItem where
  dt : Int
  timezone : Int
  weatherIcon : String
  description : String
  temp : Int
  wind_deg : Int
  wind_speed : Int
deriving DecidableEq

/-- The single card the hourly section's `innerHTML` template creates
(app.js lines 232-239); its `items` are the children appended to the
`[data-hourly]` list. -/
structure HourlyCard where
  items : List HourlyItem
deriving DecidableEq

/-- The highlights card (app.js lines 298-380).  It mixes fields captured
by closure from the current-weather response with the air-pollution
payload; `timezone` is the forecast's `city.timezone`, which shadows the
current-weather `timezone` inside the forecast callback. -/
structure HighlightCard where
  humidity : Int
  pressure : Int
  feels_like : Int
  visibility : Int
  sunrise : Int
  sunset : Int
  timezone : Int
  aqi : Int
  pm2_5 : Int
  so2 : Int
  no2 : Int
  o3 : Int
deriving DecidableEq

/-- One `card-item` of the 5-day forecast list (app.js lines 404-424).
`dt_txt` is the raw date string the rendered labels are derived from. -/
structure DailyItem where
  temp_max : Int
  weatherIcon : String
  description : String
  dt_txt : String
deriving DecidableEq

/-- The single card the 5-day section's `innerHTML` template creates
(app.js lines 386-391); its `items` are the children appended to the
`[data-forecast-list]` list. -/
structure ForecastCard where
  items : List DailyItem
deriving DecidableEq

/-- The page state `app.js` reads and writes: the loading indicator, the
container's style and class, the error panel's `display`, the disabled
state of the current-location button, and the contents of the four page
regions (each region modelled as the list of cards it contains). -/
structure PageState where
  loadingActive : Bool
  containerOverflowY : String
  containerFadeIn : Bool
  errorDisplay : String
  currentLocationDisabled : Bool
  currentWeatherCards : List NowCard
  hourlyCards : List HourlyCard
  highlightCards : List HighlightCard
  forecastCards : List ForecastCard
deriving DecidableEq

/-! ### Renderers for the individual fragments -/

/-- The "Now" card as built at app.js lines 187-216, before the
reverse-geocoding callback fills `[data-location]`.  Line 191:
`const weatherIcon = description === "broken clouds" ? "04.0d" : icon`. -/
def renderNowCard (cw : CurrentWeather) : NowCard :=
  { temp := cw.temp
    weatherIcon := if cw.description = "broken clouds" then "04.0d" else cw.icon
    description := cw.description
    dt := cw.dt
    timezone := cw.timezone
    location := "" }

/-- One hourly `slider-item` as built at app.js lines 243-284 from a
forecast-list element (the `timezone` in scope is `city.timezone`).
Line 251: `const weatherIcon = description === "broken clouds" ? "04.0d" : icon`. -/
def renderHourlyItem (timezone : Int) (e : ForecastEntry) : HourlyItem :=
  { dt := e.dt
    timezone := timezone
    weatherIcon := if e.description = "broken clouds" then "04.0d" else e.icon
    description := e.description
    temp := e.temp
    wind_deg := e.wind_deg
    wind_speed := e.wind_speed }

/-- The hourly loop at app.js lines 241-285:
`for (const [index, data] of forecastList.entries()) { if (index > 7) break; ... }`,
appending one item per element until the index exceeds 7. -/
def hourlyLoop (timezone : Int) (fl : List ForecastEntry) (index : Nat) : List HourlyItem :=
  match fl with
  | [] => []
  | d :: rest =>
    if index > 7 then []
    else renderHourlyItem timezone d :: hourlyLoop timezone rest (index + 1)

/-- The items appended to the `[data-hourly]` list for a forecast list. -/
def hourlyItems (timezone : Int) (fl : List ForecastEntry) : List HourlyItem :=
  hourlyLoop timezone fl 0

/-- One 5-day `card-item` as built at app.js lines 394-424.
Line 401: `const weatherIcon = description === "broken clouds" ? "04.0d" : icon`. -/
def renderDailyItem (e : ForecastEntry) : DailyItem :=
  { temp_max := e.temp_max
    weatherIcon := if e.description = "broken clouds" then "04.0d" else e.icon
    description := e.description
    dt_txt := e.dt_txt }

/-- The daily loop at app.js lines 393-426:
`for (let i = 7, len = forecastList.length; i < len; i += 8)`,
rendering `forecastList[i]` at each step. -/
def dailyItemsFrom (fl : List ForecastEntry) (i : Nat) : List DailyItem :=
  if h : i < fl.length then
    renderDailyItem (fl.get ⟨i, h⟩) :: dailyItemsFrom fl (i + 8)
  else []
termination_by fl.length - i

/-- The items appended to the `[data-forecast-list]` list for a forecast
list: the loop starts at index 7. -/
def dailyItems (fl : List ForecastEntry) : List DailyItem :=
  dailyItemsFrom fl 7

/-- The highlights card as built at app.js lines 298-380 inside the
air-pollution callback, from values captured by closure. -/
def renderHighlightCard (cw : CurrentWeather) (fc : Forecast) (ap : AirPollution) :
    HighlightCard :=
  { humidity := cw.humidity
    pressure := cw.pressure
    feels_like := cw.feels_like
    visibility := cw.visibility
    sunrise := cw.sunrise
    sunset := cw.sunset
    timezone := fc.timezone
    aqi := ap.aqi
    pm2_5 := ap.pm2_5
    so2 := ap.so2
    no2 := ap.no2
    o3 := ap.o3 }

/-! ### The `updateWeather` orchestrator and `error404` -/

/-- The synchronous prologue of `updateWeather` (app.js lines 153-172),
run before any fetch is answered: show the loading indicator, lock the
container, hide the error panel, clear the four page regions, and set the
current-location button's `disabled` attribute exactly when
`window.location.hash === "#/current-location"`. -/
def updateWeatherEntry (hash : String) (s : PageState) : PageState :=
  { s with
    loadingActive := true
    containerOverflowY := "hidden"
    containerFadeIn := false
    errorDisplay := "none"
    currentWeatherCards := []
    hourlyCards := []
    highlightCards := []
    forecastCards := []
    currentLocationDisabled := hash == "#/current-location" }

/-- The nested fetch callbacks of `updateWeather` (app.js lines 177-432),
for a run in which every fetch completes successfully.  The steps follow
source order: the current-weather callback builds the "Now" card (the
reverse-geocoding callback then writes `name, country` into the card's
`[data-location]` node, modelled by completing the card value before it
is appended); the forecast callback replaces the hourly section with its
template card and appends up to 8 items, issues the air-pollution fetch,
replaces the 5-day section with its template card and appends the sampled
items, then hides the loading indicator and reveals the container; the
air-pollution callback appends the highlights card. -/
def updateWeatherChain (cw : CurrentWeather) (geo : GeoPlace) (fc : Forecast)
    (ap : AirPollution) (s : PageState) : PageState :=
  let card := renderNowCard cw
  let card := { card with location := geo.name ++ ", " ++ geo.country }
  let s := { s with currentWeatherCards := s.currentWeatherCards ++ [card] }
  let s := { s with hourlyCards := [{ items := hourlyItems fc.timezone fc.list }] }
  let highlight := renderHighlightCard cw fc ap
  let s := { s with forecastCards := [{ items := dailyItems fc.list }] }
  let s := { s with
    loadingActive := false
    containerOverflowY := "overlay"
    containerFadeIn := true }
  { s with highlightCards := s.highlightCards ++ [highlight] }

/-- A complete successful run of `updateWeather`: the synchronous
prologue followed by the nested callbacks. -/
def updateWeatherRun (hash : String) (cw : CurrentWeather) (geo : GeoPlace)
    (fc : Forecast) (ap : AirPollution) (s : PageState) : PageState :=
  updateWeatherChain cw geo fc ap (updateWeatherEntry hash s)

/-- `error404` (app.js lines 435-438): show the error panel and hide the
loading indicator. -/
def error404 (s : PageState) : PageState :=
  { s with errorDisplay := "flex", loadingActive := false }

/-- The calendar day of a Unix timestamp: whole days since the epoch
(floor division; on `Int` with the positive divisor 86400, `/` is
Euclidean division, which agrees with floor division). -/
def dayIndex (t : Int) : Int :=
  t / 86400

/-! ### Search flow (app.js lines 52-103) -/

/-- The state the search `input` listener reads and writes: the field's
value and its `searching` class, the result panel's `active` class and
contents, the number of pending debounce timers, and whether the
`searchTimeout` variable holds a timeout id (it is initialised to
`null`). -/
structure SearchState where
  fieldValue : String
  fieldSearching : Bool
  resultActive : Bool
  resultHTML : String
  pendingTimers : Nat
  searchTimeoutSet : Bool
deriving DecidableEq

/-- The state before any input event: `searchTimeout = null`
(app.js line 55), empty field, no pending timer. -/
def initialSearchState : SearchState :=
  { fieldValue := ""
    fieldSearching := false
    resultActive := false
    resultHTML := ""
    pendingTimers := 0
    searchTimeoutSet := false }

/-- App.js line 59: `searchTimeout ?? clearTimeout(searchTimeout)`.
With the nullish-coalescing operator, the right operand runs only when
`searchTimeout` is null, in which case `clearTimeout(null)` cancels
nothing; when `searchTimeout` holds a timeout id, `??` short-circuits and
`clearTimeout` is not called.  In either case no pending timer is
cancelled. -/
def nullishClearStep (s : SearchState) : SearchState :=
  if s.searchTimeoutSet then
    s
  else
    s

/-- The search-field `input` listener (app.js lines 58-103), fired with
the field's current value `v`: run the (ineffective) clear step; on an
empty value deactivate and empty the result panel and drop the
`searching` class; on a non-empty value add the `searching` class and
schedule a debounce timer, storing its id in `searchTimeout`. -/
def handleInput (s : SearchState) (v : String) : SearchState :=
  let s0 := nullishClearStep { s with fieldValue := v }
  let s1 :=
    if v = "" then
      { s0 with resultActive := false, resultHTML := "", fieldSearching := false }
    else
      { s0 with fieldSearching := true }
  if v = "" then s1
  else { s1 with pendingTimers := s1.pendingTimers + 1, searchTimeoutSet := true }

/-- A sequence of input events, applied in order from the initial
state. -/
def runInputs (vs : List String) : SearchState :=
  vs.foldl handleInput initialSearchState

/-- Modelled from the spec: `url.geo` (defined in `api.js`, which is not
under `src/`) builds the geocoding endpoint URL for a query string; it is
kept abstract as the query it carries. -/
structure GeoURL where
  query : String
deriving DecidableEq

/-- The geocoding fetches issued once every pending debounce timer has
expired with no further input: each timer's callback runs
`fetchData(url.geo(searchField.value), ...)` (app.js line 70), reading
the field's value at expiry time. -/
def fetchesOnExpiry (s : SearchState) : List GeoURL :=
  List.replicate s.pendingTimers { query := s.fieldValue }

/-! ### Fetch-chain trace model for `updateWeather` (app.js lines 177-432)

Modelled from the spec: `fetchData` (defined in `api.js`, which is not
under `src/`) "performs a network GET, parses the body as JSON, and
invokes a success callback with the parsed value"; a fetch is issued when
`fetchData` is called and its callback runs when the response arrives, in
any order relative to other in-flight fetches.  The callbacks themselves
are the nested ones of `app.js`. -/

/-- The four fetches `updateWeather` issues. -/
inductive FetchKind
  | currentWeather
  | reverseGeo
  | forecast
  | airPollution
deriving DecidableEq

/-- Trace events: a fetch being issued, or its response arriving and its
callback running. -/
inductive Event
  | issue : FetchKind → Event
  | complete : FetchKind → Event
deriving DecidableEq

/-- The fetches each callback issues when it runs, in source order: the
current-weather callback calls `fetchData(url.reverseGeo ...)` (line 218)
and `fetchData(url.forecast ...)` (line 226); the forecast callback calls
`fetchData(url.airPollution ...)` (line 290); the other callbacks issue
nothing. -/
def callbackIssues : FetchKind → List FetchKind
  | .currentWeather => [.reverseGeo, .forecast]
  | .reverseGeo => []
  | .forecast => [.airPollution]
  | .airPollution => []

/-- A state of one `updateWeather` run: the trace of events so far and
the fetches issued but not yet completed. -/
structure ChainState where
  trace : List Event
  pending : List FetchKind
deriving DecidableEq

/-- The state just after `updateWeather`'s synchronous body ran: it
issued the current-weather fetch (line 177). -/
def initChain : ChainState :=
  { trace := [Event.issue FetchKind.currentWeather]
    pending := [FetchKind.currentWeather] }

/-- One event-loop step: some in-flight fetch `k` completes and its
callback runs, atomically appending the completion and the issues the
callback makes. -/
inductive ChainReachable : ChainState → Prop
  | init : ChainReachable initChain
  | step (s : ChainState) (k : FetchKind) (hk : k ∈ s.pending)
      (hs : ChainReachable s) :
      ChainReachable
        { trace := s.trace ++ Event.complete k :: (callbackIssues k).map Event.issue
          pending := s.pending.erase k ++ callbackIssues k }

/-- `a` occurs before `b` in the trace `tr`: every prefix of `tr`
containing `b` already contains `a`. -/
def precedes (a b : Event) (tr : List Event) : Prop :=
  ∀ n : Nat, b ∈ tr.take n → a ∈ tr.take n

/-- The three dependent fetches of the chain (the reverse-geocoding fetch
is fire-and-forget and not part of it). -/
def chainKinds : List FetchKind :=
  [FetchKind.currentWeather, FetchKind.forecast, FetchKind.airPollution]

/-- At most one of the three chain fetches is in flight. -/
def atMostOneChainPending (p : List FetchKind) : Prop :=
  (p.filter (fun k => chainKinds.contains k)).length ≤ 1

/-- The multisets of in-flight fetches a run can exhibit. -/
def pendingShape (p : List FetchKind) : Prop :=
  p = [FetchKind.currentWeather] ∨
  p = [FetchKind.reverseGeo, FetchKind.forecast] ∨
  p = [FetchKind.forecast] ∨
  p = [FetchKind.reverseGeo, FetchKind.airPollution] ∨
  p = [FetchKind.airPollution] ∨
  p = [FetchKind.reverseGeo] ∨
  p = []

/-! ### Helper lemmas -/

/-- The hourly loop renders the first `8 - index` elements. -/
lemma hourlyLoop_eq_take_map (tz : Int) (fl : List ForecastEntry) :
    ∀ index : Nat, hourlyLoop tz fl index = (fl.take (8 - index)).map (renderHourlyItem tz) := by
  induction fl with
  | nil => intro index; simp [hourlyLoop]
  | cons d rest ih =>
    intro index
    by_cases h : index > 7
    · have h8 : 8 - index = 0 := by omega
      simp [hourlyLoop, h, h8]
    · have h8 : 8 - index = (8 - (index + 1)) + 1 := by omega
      simp [hourlyLoop, h, h8, ih (index + 1)]

/-- The hourly items are the renderings of the first 8 forecast-list
elements. -/
lemma hourlyItems_eq_take_map (tz : Int) (fl : List ForecastEntry) :
    hourlyItems tz fl = (fl.take 8).map (renderHourlyItem tz) :=
  hourlyLoop_eq_take_map tz fl 0

/-- The hourly list has `min 8 (length of the forecast list)` items. -/
lemma hourlyItems_length (tz : Int) (fl : List ForecastEntry) :
    (hourlyItems tz fl).length = min 8 fl.length := by
  rw [hourlyItems_eq_take_map]
  simp [List.length_take]

/-- The `k`-th item produced by the daily loop started at `i` renders the
forecast-list element at index `i + 8 * k`. -/
lemma dailyItemsFrom_get? (fl : List ForecastEntry) :
    ∀ k i : Nat, (dailyItemsFrom fl i).get? k = (fl.get? (i + 8 * k)).map renderDailyItem := by
  intro k
  induction k with
  | zero =>
    intro i
    rw [dailyItemsFrom]
    by_cases h : i < fl.length
    · simp [h, List.get?_eq_get h]
    · have hnone : fl.get? (i + 8 * 0) = none := List.get?_eq_none.mpr (by omega)
      rw [dif_neg h, hnone]
      simp
  | succ k ih =>
    intro i
    rw [dailyItemsFrom]
    by_cases h : i < fl.length
    · have harith : i + 8 + 8 * k = i + 8 * (k + 1) := by ring
      rw [dif_pos h]
      simpa [harith] using ih (i + 8)
    · have hnone : fl.get? (i + 8 * (k + 1)) = none := List.get?_eq_none.mpr (by omega)
      rw [dif_neg h, hnone]
      simp

/-- The `k`-th daily item renders the forecast-list element at index
`7 + 8 * k`. -/
lemma dailyItems_get? (fl : List ForecastEntry) (k : Nat) :
    (dailyItems fl).get? k = (fl.get? (7 + 8 * k)).map renderDailyItem :=
  dailyItemsFrom_get? fl k 7

/-- Shifting a timestamp by `m` whole days shifts its day index by `m`. -/
lemma dayIndex_add_mul (t m : Int) : dayIndex (t + m * 86400) = dayIndex t + m :=
  Int.add_mul_ediv_right t m (by norm_num)

/-- If some element of `(a :: rest).take m` exists, the head `a` is in
that prefix as well. -/
lemma mem_take_cons_head {α : Type} (a x : α) (rest : List α) (m : Nat)
    (h : x ∈ (a :: rest).take m) : a ∈ (a :: rest).take m := by
  cases m with
  | zero => simp at h
  | succ m => simp

/-- Appending a chunk headed by `a` preserves `precedes a b`. -/
lemma precedes_append_head (a b : Event) (tr rest : List Event)
    (h : precedes a b tr) : precedes a b (tr ++ a :: rest) := by
  intro n hb
  rw [List.take_append_eq_append_take] at hb ⊢
  rcases List.mem_append.mp hb with hb | hb
  · exact List.mem_append.mpr (Or.inl (h n hb))
  · exact List.mem_append.mpr (Or.inr (mem_take_cons_head a b rest _ hb))

/-- Appending a chunk not containing `b` preserves `precedes a b`. -/
lemma precedes_append_not_mem (a b : Event) (tr chunk : List Event)
    (h : precedes a b tr) (hb : b ∉ chunk) : precedes a b (tr ++ chunk) := by
  intro n hbn
  rw [List.take_append_eq_append_take] at hbn ⊢
  rcases List.mem_append.mp hbn with hbn | hbn
  · exact List.mem_append.mpr (Or.inl (h n hbn))
  · exact absurd (List.take_subset _ _ hbn) hb

/-- The invariant of the fetch chain: the current-weather completion
precedes the forecast issue, the forecast completion precedes the
air-pollution issue, and the in-flight multiset has one of the seven
reachable shapes. -/
lemma chain_invariant (s : ChainState) (hs : ChainReachable s) :
    precedes (Event.complete FetchKind.currentWeather) (Event.issue FetchKind.forecast)
      s.trace ∧
    precedes (Event.complete FetchKind.forecast) (Event.issue FetchKind.airPollution)
      s.trace ∧
    pendingShape s.pending := by
  induction hs with
  | init =>
    refine ⟨?_, ?_, Or.inl rfl⟩ <;>
    · intro n hb
      have hmem := List.take_subset n _ hb
      simp [initChain] at hmem
  | step s k hk hs ih =>
    obtain ⟨ih1, ih2, ihp⟩ := ih
    refine ⟨?_, ?_, ?_⟩
    · cases k with
      | currentWeather => exact precedes_append_head _ _ _ _ ih1
      | reverseGeo => exact precedes_append_not_mem _ _ _ _ ih1 (by decide)
      | forecast => exact precedes_append_not_mem _ _ _ _ ih1 (by decide)
      | airPollution => exact precedes_append_not_mem _ _ _ _ ih1 (by decide)
    · cases k with
      | currentWeather => exact precedes_append_not_mem _ _ _ _ ih2 (by decide)
      | reverseGeo => exact precedes_append_not_mem _ _ _ _ ih2 (by decide)
      | forecast => exact precedes_append_head _ _ _ _ ih2
      | airPollution => exact precedes_append_not_mem _ _ _ _ ih2 (by decide)
    · show pendingShape (s.pending.erase k ++ callbackIssues k)
      rcases ihp with h | h | h | h | h | h | h <;> rw [h] at hk ⊢ <;>
        cases k <;> first
          | exact absurd hk (by decide)
          | (unfold pendingShape; decide)

/-! ### Claim theorems -/

/-- C1 (code evaluation at the failing input): after input events with
values "a" then "ab" inside the debounce window, the expiry of the
pending timers issues two geocoding fetches, both for the final value
"ab" — not exactly one.  The `searchTimeout ?? clearTimeout(searchTimeout)`
at app.js line 59 never cancels the earlier timer, so one fetch per
non-empty keystroke is issued. -/
theorem debounce_two_fetches_for_two_keystrokes :
    fetchesOnExpiry (runInputs ["a", "ab"]) =
      [{ query := "ab" }, { query := "ab" }] ∧
    (fetchesOnExpiry (runInputs ["a", "ab"])).length ≠ 1 := by
  constructor
  · rfl
  · decide

/-- C2: in each of the three render sites (the "Now" card, an hourly
entry, a daily entry), a description equal to "broken clouds" forces the
fixed override icon "04.0d" regardless of the provided icon code, and any
other description leaves the provided icon code unchanged. -/
theorem broken_clouds_icon_override (cw : CurrentWeather) (tz : Int) (e : ForecastEntry) :
    (cw.description = "broken clouds" → (renderNowCard cw).weatherIcon = "04.0d") ∧
    (cw.description ≠ "broken clouds" → (renderNowCard cw).weatherIcon = cw.icon) ∧
    (e.description = "broken clouds" →
      (renderHourlyItem tz e).weatherIcon = "04.0d" ∧
      (renderDailyItem e).weatherIcon = "04.0d") ∧
    (e.description ≠ "broken clouds" →
      (renderHourlyItem tz e).weatherIcon = e.icon ∧
      (renderDailyItem e).weatherIcon = e.icon) := by
  refine ⟨fun h => ?_, fun h => ?_, fun h => ⟨?_, ?_⟩, fun h => ⟨?_, ?_⟩⟩ <;>
    simp [renderNowCard, renderHourlyItem, renderDailyItem, h]

/-- A current-weather payload whose description is "broken clouds" with
API icon "01d". -/
def cwBroken : CurrentWeather :=
  { description := "broken clouds"
    icon := "01d"
    dt := 1700000000
    sunrise := 1699980000
    sunset := 1700020000
    temp := 20
    feels_like := 19
    pressure := 1012
    humidity := 60
    visibility := 10000
    timezone := 21600 }

/-- A forecast entry whose description is not "broken clouds". -/
def entryClear : ForecastEntry :=
  { dt := 1700000000
    temp := 20
    temp_max := 25
    description := "clear sky"
    icon := "01d"
    wind_deg := 90
    wind_speed := 3
    dt_txt := "2023-11-14 18:00:00" }

/-- C2 witness: description "broken clouds" with icon "01d" renders
"04.0d"; description "clear sky" with icon "01d" renders "01d" in both
the hourly and the daily entry. -/
theorem broken_clouds_icon_override_witness :
    (renderNowCard cwBroken).weatherIcon = "04.0d" ∧
    (renderHourlyItem 21600 entryClear).weatherIcon = "01d" ∧
    (renderDailyItem entryClear).weatherIcon = "01d" :=
  ⟨(broken_clouds_icon_override cwBroken 21600 entryClear).1 rfl,
   ((broken_clouds_icon_override cwBroken 21600 entryClear).2.2.2 (by decide)).1,
   ((broken_clouds_icon_override cwBroken 21600 entryClear).2.2.2 (by decide)).2⟩

/-- C3: the hourly list renders exactly the forecast-list elements at
indices 0 through 7 (the first 8 elements), and its length is
`min 8 (length of the returned forecast list)`. -/
theorem hourly_entries_first_eight (tz : Int) (fl : List ForecastEntry) :
    hourlyItems tz fl = (fl.take 8).map (renderHourlyItem tz) ∧
    (hourlyItems tz fl).length = min 8 fl.length :=
  ⟨hourlyItems_eq_take_map tz fl, hourlyItems_length tz fl⟩

/-- C4: the daily list renders exactly the forecast-list elements at
indices 7, 15, 23, … (step 8 from index 7, while below the list length),
in that order: its `k`-th entry is the rendering of the element at index
`7 + 8 * k`.  Under the API's 3-hour spacing of forecast timestamps
(entry `j` at `t0 + 10800 * j`), consecutive sampled entries are exactly
one day apart, so the sampled entries have strictly increasing and hence
pairwise distinct calendar days. -/
theorem daily_entries_sampling (fl : List ForecastEntry) (t0 : Int)
    (h : ∀ (j : Nat) (hj : j < fl.length), (fl.get ⟨j, hj⟩).dt = t0 + 10800 * j) :
    (∀ k : Nat, (dailyItems fl).get? k = (fl.get? (7 + 8 * k)).map renderDailyItem) ∧
    (∀ (k1 k2 : Nat) (e1 e2 : ForecastEntry), k1 < k2 →
      fl.get? (7 + 8 * k1) = some e1 → fl.get? (7 + 8 * k2) = some e2 →
      dayIndex e1.dt < dayIndex e2.dt) := by
  constructor
  · intro k
    exact dailyItems_get? fl k
  · intro k1 k2 e1 e2 hk h1 h2
    obtain ⟨hl1, hg1⟩ := List.get?_eq_some.mp h1
    obtain ⟨hl2, hg2⟩ := List.get?_eq_some.mp h2
    have hd1 : e1.dt = t0 + 10800 * (7 + 8 * k1 : Nat) := by
      rw [← hg1]; exact h _ hl1
    have hd2 : e2.dt = t0 + 10800 * (7 + 8 * k2 : Nat) := by
      rw [← hg2]; exact h _ hl2
    have hkey : e2.dt = e1.dt + ((k2 : Int) - (k1 : Int)) * 86400 := by
      rw [hd1, hd2]
      push_cast
      ring
    have hshift : dayIndex e2.dt = dayIndex e1.dt + ((k2 : Int) - (k1 : Int)) := by
      rw [hkey, dayIndex_add_mul]
    have hlt : (k1 : Int) < (k2 : Int) := by exact_mod_cast hk
    omega

/-- A forecast list with 16 entries spaced 3 hours apart starting at the
epoch (two sampled daily entries, at indices 7 and 15). -/
def flWitness : List ForecastEntry :=
  (List.range 16).map (fun j =>
    { dt := 10800 * (j : Int)
      temp := 20
      temp_max := 25
      description := "scattered clouds"
      icon := "03d"
      wind_deg := 90
      wind_speed := 3
      dt_txt := "" })

/-- C4 witness: on a 16-entry, 3-hour-spaced forecast list the sampling
characterisation and the distinct-day property hold. -/
theorem daily_entries_sampling_witness :
    (∀ k : Nat, (dailyItems flWitness).get? k =
      (flWitness.get? (7 + 8 * k)).map renderDailyItem) ∧
    (∀ (k1 k2 : Nat) (e1 e2 : ForecastEntry), k1 < k2 →
      flWitness.get? (7 + 8 * k1) = some e1 → flWitness.get? (7 + 8 * k2) = some e2 →
      dayIndex e1.dt < dayIndex e2.dt) :=
  daily_entries_sampling flWitness 0 (by decide)

/-- C5: in every reachable state of an `updateWeather` run, the
current-weather completion precedes the forecast issue in the trace, the
forecast completion precedes the air-pollution issue, and at most one of
the three chained fetches is in flight: the chain is strictly sequential
by callback nesting, never issued in parallel. -/
theorem fetch_chain_strictly_sequential (s : ChainState) (hs : ChainReachable s) :
    precedes (Event.complete FetchKind.currentWeather) (Event.issue FetchKind.forecast)
      s.trace ∧
    precedes (Event.complete FetchKind.forecast) (Event.issue FetchKind.airPollution)
      s.trace ∧
    atMostOneChainPending s.pending := by
  obtain ⟨h1, h2, hp⟩ := chain_invariant s hs
  refine ⟨h1, h2, ?_⟩
  rcases hp with h | h | h | h | h | h | h <;> rw [h] <;>
    unfold atMostOneChainPending <;> decide

/-- The chain state after the current-weather fetch completed and its
callback issued the reverse-geocoding and forecast fetches. -/
def chainAfterCurrent : ChainState :=
  { trace := [Event.issue FetchKind.currentWeather, Event.complete FetchKind.currentWeather,
      Event.issue FetchKind.reverseGeo, Event.issue FetchKind.forecast]
    pending := [FetchKind.reverseGeo, FetchKind.forecast] }

/-- C5 witness: the ordering and mutual-exclusion properties at the
reachable state following the current-weather completion. -/
theorem fetch_chain_strictly_sequential_witness :
    precedes (Event.complete FetchKind.currentWeather) (Event.issue FetchKind.forecast)
      chainAfterCurrent.trace ∧
    precedes (Event.complete FetchKind.forecast) (Event.issue FetchKind.airPollution)
      chainAfterCurrent.trace ∧
    atMostOneChainPending chainAfterCurrent.pending :=
  fetch_chain_strictly_sequential chainAfterCurrent
    (show ChainReachable chainAfterCurrent from
      ChainReachable.step initChain FetchKind.currentWeather (by decide) ChainReachable.init)

/-- C6: after a run of `updateWeather` in which every fetch callback
completed successfully, the page holds exactly one "Now" card, exactly
one hourly card whose list has at most 8 items, exactly one highlights
card, exactly one 5-day card, and the loading indicator is inactive. -/
theorem run_final_page_state (hash : String) (cw : CurrentWeather) (geo : GeoPlace)
    (fc : Forecast) (ap : AirPollution) (s : PageState) :
    (updateWeatherRun hash cw geo fc ap s).currentWeatherCards.length = 1 ∧
    (updateWeatherRun hash cw geo fc ap s).hourlyCards =
      [{ items := hourlyItems fc.timezone fc.list }] ∧
    (hourlyItems fc.timezone fc.list).length ≤ 8 ∧
    (updateWeatherRun hash cw geo fc ap s).highlightCards.length = 1 ∧
    (updateWeatherRun hash cw geo fc ap s).forecastCards =
      [{ items := dailyItems fc.list }] ∧
    (updateWeatherRun hash cw geo fc ap s).loadingActive = false := by
  refine ⟨rfl, rfl, ?_, rfl, rfl, rfl⟩
  rw [hourlyItems_length]
  exact min_le_left _ _

/-- C7: the synchronous prologue of `updateWeather` clears the four page
regions, activates the loading indicator, hides the error panel, and
disables the current-location control exactly when the active route is
`#/current-location`; every full run factors through this prologue, so
all of it happens before any fetch callback runs. -/
theorem entry_effects (hash : String) (s : PageState) :
    (updateWeatherEntry hash s).currentWeatherCards = [] ∧
    (updateWeatherEntry hash s).hourlyCards = [] ∧
    (updateWeatherEntry hash s).highlightCards = [] ∧
    (updateWeatherEntry hash s).forecastCards = [] ∧
    (updateWeatherEntry hash s).loadingActive = true ∧
    ((updateWeatherEntry hash s).currentLocationDisabled = true ↔
      hash = "#/current-location") ∧
    (∀ (cw : CurrentWeather) (geo : GeoPlace) (fc : Forecast) (ap : AirPollution),
      updateWeatherRun hash cw geo fc ap s =
        updateWeatherChain cw geo fc ap (updateWeatherEntry hash s)) := by
  refine ⟨rfl, rfl, rfl, rfl, rfl, ?_, fun _ _ _ _ => rfl⟩
  simp [updateWeatherEntry]

/-- C8: an input event with an empty field value empties the search
result panel, removes its active state, removes the "searching" class
from the field, and schedules no debounce timer (so no geocoding fetch
for that event). -/
theorem empty_input_clears_search (s : SearchState) :
    (handleInput s "").resultHTML = "" ∧
    (handleInput s "").resultActive = false ∧
    (handleInput s "").fieldSearching = false ∧
    (handleInput s "").pendingTimers = s.pendingTimers := by
  simp [handleInput, nullishClearStep]

/-- C9: from any prior page state, `error404` sets the error panel's
display to "flex" (visible) and deactivates the loading indicator, and
changes nothing else: every other component of the page state is left
exactly as it was. -/
theorem error404_effects (s : PageState) :
    (error404 s).errorDisplay = "flex" ∧
    (error404 s).loadingActive = false ∧
    (error404 s).containerOverflowY = s.containerOverflowY ∧
    (error404 s).containerFadeIn = s.containerFadeIn ∧
    (error404 s).currentLocationDisabled = s.currentLocationDisabled ∧
    (error404 s).currentWeatherCards = s.currentWeatherCards ∧
    (error404 s).hourlyCards = s.hourlyCards ∧
    (error404 s).highlightCards = s.highlightCards ∧
    (error404 s).forecastCards = s.forecastCards :=
  ⟨rfl, rfl, rfl, rfl, rfl, rfl, rfl, rfl, rfl⟩

/-- C10: the prologue of `updateWeather` sets the error panel's display
to "none" from any prior state, in particular from a state just produced
by `error404`, so a previously shown error is hidden whenever a new
weather view load begins. -/
theorem entry_hides_error_panel (hash : String) (s : PageState) :
    (updateWeatherEntry hash s).errorDisplay = "none" ∧
    (updateWeatherEntry hash (error404 s)).errorDisplay = "none" :=
  ⟨rfl, rfl⟩
